import Mathlib

/-!
Verification of the Zendesk audit-log connector
(`src/grove/connectors/zendesk/api.py` and
`src/grove/connectors/zendesk/audit_logs.py`).

The HTTP network is modelled as a script: a list of the successive
`HTTPResponse` values that `requests.get` would deliver, consumed in order.
Timestamps are modelled as integers (seconds); the wire formatting through
`strftime(DATESTAMP_FORMAT)` is injective and monotone on the values the
connector produces, so nothing below depends on the textual format.
Log entries are opaque to the connector and are modelled as naturals.
-/

namespace Grove

abbrev Timestamp := Int

abbrev Entry := Nat

/-- A decoded JSON response body, restricted to the two fields the client
reads (`result.body.get("next_page", None)` and
`result.body.get("audit_logs", [])`); `none` models an absent field. -/
structure Body where
  audit_logs : Option (List Entry)
  next_page : Option String
deriving Repr, DecidableEq

/-- One HTTP response: the status code, the `Retry-After` header (the only
header the client reads; `none` models an absent header) and the decoded
body. -/
structure HTTPResponse where
  status : Nat
  retryAfter : Option String
  body : Body
deriving Repr, DecidableEq

/-- One issued HTTP GET, as `requests.get(url, headers=self.headers,
params=params)` receives it: the URL, the query parameters (`none` models
`params=None`) and the client's static headers. -/
structure Request where
  url : String
  params : Option (List (String × Option Timestamp))
  headers : List (String × String)
deriving Repr, DecidableEq

/-- Inserting one key/value pair into a Python `dict` under construction:
an existing key keeps its position but its value is overwritten, a new key
is appended. -/
def dictInsert (d : List (String × Option Timestamp))
    (kv : String × Option Timestamp) : List (String × Option Timestamp) :=
  if (d.map Prod.fst).contains kv.fst then
    d.map (fun p => if p.fst = kv.fst then (p.fst, kv.snd) else p)
  else
    d ++ [kv]

/-- Evaluation of a Python `dict` literal: the key/value pairs are inserted
left to right, so a repeated key ends up with the value of its last
occurrence. -/
def pyDict (pairs : List (String × Option Timestamp)) :
    List (String × Option Timestamp) :=
  pairs.foldl dictInsert []

/-- The repeated query-parameter key of the first request of a pass. -/
def filter_created_at_key : String := "filter[created_at][]"

/-- The `params` dict literal built by `Client.get_audit_logs` for the
first request of a pass, exactly as written in the source: a dict literal
with the key `filter[created_at][]` occurring twice, first mapped to
`from_date` and then to `to_date`. -/
def first_page_params (from_date to_date : Option Timestamp) :
    List (String × Option Timestamp) :=
  pyDict [(filter_created_at_key, from_date), (filter_created_at_key, to_date)]

/-- The typed failures of `Client._get`: `RateLimitException` and
`RequestFailedException` both carry the offending response (`err` wraps the
response, so status and body travel with it), and `valueError` models the
`ValueError` escaping from `int(...)` when a present `Retry-After` header is
not an integer literal. -/
inductive GetError where
  | rateLimited (detail : HTTPResponse)
  | requestFailed (detail : HTTPResponse)
  | valueError (detail : String)
deriving Repr, DecidableEq

/-- Outcome of one `_get` call against a scripted network. -/
inductive GetResult where
  | ok (r : HTTPResponse)
  | err (e : GetError)
  | exhausted
deriving Repr, DecidableEq

/-- Full account of one `Client._get` call: every request issued (one per
iteration of the retry loop), every `time.sleep` duration performed, the
final result, and the part of the network script left unconsumed.
`exhausted` arises only when the script runs out, which has no counterpart
against a real server. -/
structure GetOutcome where
  requests : List Request
  sleeps : List Int
  result : GetResult
  rest : List HTTPResponse
deriving Repr, DecidableEq

/-- Accumulates a decimal number over a digit list, failing on the first
non-digit character. -/
def pyIntDigits : List Char → Nat → Option Nat
  | [], acc => some acc
  | c :: cs, acc =>
    if c.isDigit then pyIntDigits cs (acc * 10 + (c.toNat - 48)) else none

/-- Models Python `int(s)` on a header string: an optional sign followed by
at least one ASCII digit converts, anything else raises `ValueError`
(surrounding whitespace and underscore grouping, which Python also
accepts, do not occur in this API's headers and are not modelled). -/
def pyInt (s : String) : Option Int :=
  match s.toList with
  | [] => none
  | '-' :: c :: cs => (pyIntDigits (c :: cs) 0).map (fun n => -(n : Int))
  | '+' :: c :: cs => (pyIntDigits (c :: cs) 0).map (fun n => (n : Int))
  | cs => (pyIntDigits cs 0).map (fun n => (n : Int))

/-- Models `int(err.response.headers.get("Retry-After", "1"))`: an absent
header defaults to `"1"`, a present header is converted by `int`, which
raises `ValueError` on a non-integer string. -/
def retry_after_seconds : Option String → Except String Int
  | none => Except.ok 1
  | some s =>
    match pyInt s with
    | some n => Except.ok n
    | none => Except.error s

/-- The Zendesk API client state: the retry flag and the static headers set
once at construction (`Accept` and the basic-auth `Authorization` header),
plus the per-identity base URI. -/
structure Client where
  retry : Bool
  headers : List (String × String)
  api_base_uri : String
deriving Repr, DecidableEq

/-- Models `requests.Response.raise_for_status`, which raises `HTTPError`
exactly for client-error (4xx) and server-error (5xx) status codes; every
other status, 3xx included, passes through as success. -/
def raise_for_status_raises (status : Nat) : Bool :=
  400 ≤ status && status < 600

/-- The base64 alphabet as used by `base64.b64encode`. -/
def base64_alphabet : List Char :=
  "ABCDEFGHIJKLMNOPQRSTUVWXYZabcdefghijklmnopqrstuvwxyz0123456789+/".toList

/-- The base64 digit for a 6-bit value. -/
def base64_digit (n : Nat) : Char := base64_alphabet.getD n 'A'

/-- Standard base64 of a byte list, three bytes to four digits with `=`
padding. -/
def base64_chunks : List Nat → String
  | b0 :: b1 :: b2 :: rest =>
    let n := b0 * 65536 + b1 * 256 + b2
    String.mk [base64_digit (n / 262144 % 64), base64_digit (n / 4096 % 64),
      base64_digit (n / 64 % 64), base64_digit (n % 64)] ++ base64_chunks rest
  | [b0, b1] =>
    let n := b0 * 65536 + b1 * 256
    String.mk [base64_digit (n / 262144 % 64), base64_digit (n / 4096 % 64),
      base64_digit (n / 64 % 64), '=']
  | [b0] =>
    let n := b0 * 65536
    String.mk [base64_digit (n / 262144 % 64), base64_digit (n / 4096 % 64),
      '=', '=']
  | [] => ""

/-- Models `str(base64.b64encode(bytes(s, "utf-8")), "utf-8")`. -/
def b64encode (s : String) : String :=
  base64_chunks (s.toUTF8.toList.map UInt8.toNat)

/-- Models `Client.__init__`: builds the basic-auth value from
`username` and `token`, stores the static headers, the retry flag and the
identity-specific base URI. -/
def Client.init (identity username token : String) (retry : Bool) : Client :=
  { retry := retry
    headers := [("Accept", "application/json"),
      ("Authorization", "Basic " ++ b64encode (username ++ "/token:" ++ token))]
    api_base_uri := "https://" ++ identity ++ ".zendesk.com" }

/-- Models a call of `Client(...)` that omits the `retry` keyword, as
`Connector.collect` does: Python supplies the declared parameter default,
`retry=True`. -/
def Client.initDefaultRetry (identity username token : String) : Client :=
  Client.init identity username token true

/-- The message of the `ValueError` CPython's `time.sleep` raises when
called with a negative duration. -/
def sleep_negative_msg : String := "sleep length must be non-negative"

/-- Models `Client._get` run against a scripted network: each iteration of
the `while True` loop issues `requests.get(url, headers, params)` and
receives the next scripted response. `raise_for_status` turns 4xx/5xx into
`HTTPError`; on a 429 with retries enabled the client calls
`time.sleep(int(...))` — which raises `ValueError` for a negative
duration and otherwise suspends for that many seconds — and re-issues the
identical request, on a 429 with retries disabled it raises
`RateLimitException`, and on any other error status it raises
`RequestFailedException`. -/
def Client.get (c : Client) (url : String)
    (params : Option (List (String × Option Timestamp))) :
    List HTTPResponse → GetOutcome
  | [] => ⟨[], [], GetResult.exhausted, []⟩
  | r :: rest =>
    let req : Request := ⟨url, params, c.headers⟩
    if raise_for_status_raises r.status then
      if r.status = 429 then
        if c.retry then
          match retry_after_seconds r.retryAfter with
          | Except.ok n =>
            if n < 0 then
              ⟨[req], [],
                GetResult.err (GetError.valueError sleep_negative_msg), rest⟩
            else
              let o := Client.get c url params rest
              ⟨req :: o.requests, n :: o.sleeps, o.result, o.rest⟩
          | Except.error s =>
            ⟨[req], [], GetResult.err (GetError.valueError s), rest⟩
        else ⟨[req], [], GetResult.err (GetError.rateLimited r), rest⟩
      else ⟨[req], [], GetResult.err (GetError.requestFailed r), rest⟩
    else ⟨[req], [], GetResult.ok r, rest⟩

/-- Return value of `Client.get_audit_logs`: a pagination cursor and the
page's log entries. -/
structure AuditLogEntries where
  cursor : Option String
  entries : List Entry
deriving Repr, DecidableEq

/-- Models `Client.get_audit_logs`: with a cursor the request goes to the
cursor URL with no parameters, otherwise to the audit-log endpoint with the
dict-literal date filters. On success the pagination cursor is read from
`next_page` (an empty string is normalised to `None`) and the entries from
`audit_logs` (defaulting to an empty list). The raised errors of `_get`
propagate, so the second component is `none` exactly when `_get` fails. -/
def Client.get_audit_logs (c : Client) (cursor : Option String)
    (from_date to_date : Option Timestamp) (net : List HTTPResponse) :
    GetOutcome × Option AuditLogEntries :=
  let o :=
    match cursor with
    | some cur => Client.get c cur none net
    | none =>
      Client.get c (c.api_base_uri ++ "/api/v2/audit_logs")
        (some (first_page_params from_date to_date)) net
  match o.result with
  | GetResult.ok r =>
    let cursor1 := r.body.next_page
    let cursor2 := if cursor1 = some "" then none else cursor1
    (o, some ⟨cursor2, r.body.audit_logs.getD []⟩)
  | _ => (o, none)

/-- Terminal status of one collection pass. -/
inductive PassOutcome where
  | success
  | failed (e : GetError)
  | incomplete
deriving Repr, DecidableEq

/-- Full account of one collection pass: the arguments of every
`get_audit_logs` call the loop made (cursor, from_date, to_date), every
HTTP request issued, every sleep performed, the entry batches handed to the
sink in order, and the terminal status. `incomplete` arises only when the
network script runs out mid-pass. -/
structure PassTrace where
  calls : List (Option String × Option Timestamp × Option Timestamp)
  requests : List Request
  sleeps : List Int
  batches : List (List Entry)
  outcome : PassOutcome
deriving Repr, DecidableEq

/-- Models the `while True` pagination loop of `Connector.collect`: fetch a
page, save its entries to the sink, continue with the returned cursor while
one is present. The fuel argument only bounds the recursion;
`Connector.collect` supplies more fuel than the script can consume. -/
def collectLoop (client : Client) (pointer now : Timestamp) :
    Nat → Option String → List HTTPResponse → PassTrace
  | 0, _, _ => ⟨[], [], [], [], PassOutcome.incomplete⟩
  | fuel + 1, cursor, net =>
    let step := Client.get_audit_logs client cursor (some pointer) (some now) net
    let call := (cursor, some pointer, some now)
    match step.2 with
    | some log =>
      match log.cursor with
      | none =>
        ⟨[call], step.1.requests, step.1.sleeps, [log.entries],
          PassOutcome.success⟩
      | some cur =>
        let t := collectLoop client pointer now fuel (some cur) step.1.rest
        ⟨call :: t.calls, step.1.requests ++ t.requests,
          step.1.sleeps ++ t.sleeps, log.entries :: t.batches, t.outcome⟩
    | none =>
      match step.1.result with
      | GetResult.err e =>
        ⟨[call], step.1.requests, step.1.sleeps, [], PassOutcome.failed e⟩
      | _ =>
        ⟨[call], step.1.requests, step.1.sleeps, [], PassOutcome.incomplete⟩

/-- The connector configuration surface used by `collect`: `identity`,
`key` (the API token) and `username`. -/
structure ConnectorConfig where
  identity : String
  key : String
  username : String
deriving Repr, DecidableEq

/-- Models `timedelta(days=1)` in seconds. -/
def lookback_seconds : Timestamp := 86400

/-- The client constructed at the top of `Connector.collect`: the call
passes `identity`, `token` and `username` and omits the `retry` keyword, so
the declared default applies. -/
def Connector.client (cfg : ConnectorConfig) : Client :=
  Client.initDefaultRetry cfg.identity cfg.username cfg.key

/-- Models `Connector.collect` with a fixed clock: `now` is the value both
`datetime.utcnow()` reads return. `pointer0` is the persisted watermark
(`none` models `NotFoundException` from the store); when it is absent the
pointer is seeded to one day before `now`. Returns the pointer used for
the pass together with the pass trace. -/
def Connector.collect (cfg : ConnectorConfig) (pointer0 : Option Timestamp)
    (now : Timestamp) (net : List HTTPResponse) : Timestamp × PassTrace :=
  let client := Connector.client cfg
  let pointer :=
    match pointer0 with
    | some p => p
    | none => now - lookback_seconds
  (pointer, collectLoop client pointer now (net.length + 1) none net)

/-- Modelled from the spec: the surrounding `BaseConnector` run and
persistence machinery is not part of the sources (only `collect` is). Per
the spec, a pass that finishes successfully persists the watermark as the
`now` captured at Start, while an aborted pass persists nothing beyond the
seeding, leaving a pre-existing watermark untouched. Returns the persisted
watermark after the pass together with the pass trace. -/
def Connector.run (cfg : ConnectorConfig) (pointer0 : Option Timestamp)
    (now : Timestamp) (net : List HTTPResponse) : Timestamp × PassTrace :=
  let pass := Connector.collect cfg pointer0 now net
  match pass.2.outcome with
  | PassOutcome.success => (now, pass.2)
  | _ => (pass.1, pass.2)

/-- A page chain in the sense of the spec's pagination property: every body
but the last carries a non-empty `next_page` cursor, and the last carries
an absent or empty-string one. -/
def chainOk : List Body → Prop
  | [] => False
  | [b] => b.next_page = none ∨ b.next_page = some ""
  | b :: b2 :: rest =>
    (∃ s, b.next_page = some s ∧ s ≠ "") ∧ chainOk (b2 :: rest)

/-- A network script delivering each body as a 200 response, in order. -/
def okScript (pages : List Body) : List HTTPResponse :=
  pages.map (fun b => ⟨200, none, b⟩)

/-- The request `get_audit_logs` issues for a given cursor argument: the
cursor URL with no parameters when a cursor is present, otherwise the
audit-log endpoint with the dict-literal date filters. -/
def requestFor (c : Client) (from_date to_date : Option Timestamp) :
    Option String → Request
  | some cur => ⟨cur, none, c.headers⟩
  | none =>
    ⟨c.api_base_uri ++ "/api/v2/audit_logs",
      some (first_page_params from_date to_date), c.headers⟩

/-- The cursor-only requests of a pass over a page chain: one request per
page except the last, targeting that page's `next_page` URL with no query
parameters. -/
def cursorRequests (c : Client) : List Body → List Request
  | [] => []
  | [_] => []
  | b :: b2 :: rest =>
    ⟨b.next_page.getD "", none, c.headers⟩ :: cursorRequests c (b2 :: rest)

/-- The entry batches a chain of pages should hand to the sink: one batch
per page, in order, each defaulting to empty when `audit_logs` is absent. -/
def pageEntries (pages : List Body) : List (List Entry) :=
  pages.map (fun b => b.audit_logs.getD [])

/-- A `Retry-After` header value the retry loop survives: absent (so the
default literal `"1"` is converted), or a string `int` converts to a
non-negative value, so that `time.sleep` accepts it. -/
def retryAfterUsable : Option String → Prop
  | none => True
  | some s => 0 ≤ (pyInt s).getD (-1)

/-- The sleep duration `int(headers.get("Retry-After", "1"))` computes for
a usable header. -/
def retryAfterValue : Option String → Int
  | none => 1
  | some s => (pyInt s).getD 0

/-- A demonstration client with retries enabled. -/
def demoClient : Client := Client.init "orgname" "username" "token" true

/-- A demonstration client with retries disabled. -/
def demoClientNoRetry : Client := Client.init "orgname" "username" "token" false

/-- A demonstration configuration, mirroring the repository's test
fixture. -/
def demoConfig : ConnectorConfig := ⟨"orgname", "token", "username"⟩

/-- A 429 response with a non-integer `Retry-After` header. -/
def resp429abc : HTTPResponse := ⟨429, some "abc", ⟨none, none⟩⟩

/-- A 429 response with a negative `Retry-After` header. -/
def resp429neg : HTTPResponse := ⟨429, some "-1", ⟨none, none⟩⟩

/-- A 429 response with `Retry-After: 66`, as in the repository's
rate-limit test. -/
def resp429int : HTTPResponse := ⟨429, some "66", ⟨none, none⟩⟩

/-- A 304 response (not 2xx, not 429, not a 4xx/5xx error). -/
def resp304 : HTTPResponse := ⟨304, none, ⟨none, none⟩⟩

/-- A 500 response. -/
def resp500 : HTTPResponse := ⟨500, none, ⟨none, none⟩⟩

/-- A 200 page with three entries and a cursor, like the repository's
first pagination fixture. -/
def pageWithCursor : Body := ⟨some [1, 2, 3], some "https://next.zendesk.com/p2"⟩

/-- A 200 page with one entry and no cursor field. -/
def pageLast : Body := ⟨some [4], none⟩

/-- A 200 page whose body carries neither `audit_logs` nor `next_page`. -/
def pageBare : Body := ⟨none, none⟩

lemma get_audit_logs_ok (c : Client) (cursor : Option String)
    (f t : Option Timestamp) (r : HTTPResponse) (rest : List HTTPResponse)
    (h : raise_for_status_raises r.status = false) :
    Client.get_audit_logs c cursor f t (r :: rest) =
      (⟨[requestFor c f t cursor], [], GetResult.ok r, rest⟩,
        some ⟨if r.body.next_page = some "" then none else r.body.next_page,
          r.body.audit_logs.getD []⟩) := by
  cases cursor <;> simp [Client.get_audit_logs, Client.get, h, requestFor]

lemma run_failed_keeps_pointer (cfg : ConnectorConfig) (w now : Timestamp)
    (net : List HTTPResponse) (e : GetError)
    (h : (Connector.collect cfg (some w) now net).2.outcome
      = PassOutcome.failed e) :
    (Connector.run cfg (some w) now net).1 = w := by
  simp only [Connector.run]
  rw [h]
  rfl

/-- C1: the first request of a pass is meant to carry both `created_at`
range filters, but the params dict literal in `Client.get_audit_logs`
repeats the key, so the `to_date` entry overwrites the `from_date` entry:
at from_date 0 and to_date 86400 the query carries only the upper bound
and the watermark lower bound is lost. -/
theorem first_request_loses_from_filter :
    first_page_params (some 0) (some 86400)
        = [(filter_created_at_key, some 86400)]
      ∧ (filter_created_at_key, (some 0 : Option Timestamp))
          ∉ first_page_params (some 0) (some 86400) := by
  refine ⟨rfl, ?_⟩
  decide

/-- C3: for every collection pass that ends successfully, whatever the
script of pages, the watermark persisted at the end of the pass equals the
`now` captured at pass start. -/
theorem run_success_persists_pass_start_now (cfg : ConnectorConfig)
    (pointer0 : Option Timestamp) (now : Timestamp) (net : List HTTPResponse)
    (h : (Connector.collect cfg pointer0 now net).2.outcome
      = PassOutcome.success) :
    (Connector.run cfg pointer0 now net).1 = now := by
  simp only [Connector.run]
  rw [h]

/-- Witness for C3 at a concrete one-page pass. -/
theorem run_success_persists_now_concrete :
    (Connector.collect demoConfig (some 100) 200 (okScript [pageLast])).2.outcome
        = PassOutcome.success
      ∧ (Connector.run demoConfig (some 100) 200 (okScript [pageLast])).1 = 200 :=
  ⟨rfl, run_success_persists_pass_start_now demoConfig (some 100) 200
    (okScript [pageLast]) rfl⟩

/-- C4: if any fetch error aborts a pass, the watermark persisted after
the pass equals the watermark from before the pass, regardless of how many
page batches were already handed to the sink. -/
theorem run_error_keeps_watermark (cfg : ConnectorConfig) (w now : Timestamp)
    (net : List HTTPResponse) (e : GetError)
    (h : (Connector.collect cfg (some w) now net).2.outcome
      = PassOutcome.failed e) :
    (Connector.run cfg (some w) now net).1 = w :=
  run_failed_keeps_pointer cfg w now net e h

/-- Witness for C4: a pass that delivers one batch and then hits a 500
keeps the prior watermark 100. -/
theorem run_error_keeps_watermark_concrete :
    (Connector.collect demoConfig (some 100) 200
        [⟨200, none, pageWithCursor⟩, resp500]).2.outcome
        = PassOutcome.failed (GetError.requestFailed resp500)
      ∧ (Connector.collect demoConfig (some 100) 200
          [⟨200, none, pageWithCursor⟩, resp500]).2.batches = [[1, 2, 3]]
      ∧ (Connector.run demoConfig (some 100) 200
          [⟨200, none, pageWithCursor⟩, resp500]).1 = 100 :=
  ⟨rfl, rfl, run_error_keeps_watermark demoConfig 100 200
    [⟨200, none, pageWithCursor⟩, resp500] (GetError.requestFailed resp500) rfl⟩

/-- C6: on a 429 with retries disabled the client raises RateLimited
immediately, carrying the offending response, after a single request and
with no sleep; and any failed pass leaves a pre-existing watermark
untouched. -/
theorem rate_limited_when_retries_disabled (c : Client) (url : String)
    (params : Option (List (String × Option Timestamp)))
    (r : HTTPResponse) (rest : List HTTPResponse)
    (hretry : c.retry = false) (h429 : r.status = 429) :
    Client.get c url params (r :: rest)
        = ⟨[⟨url, params, c.headers⟩], [],
            GetResult.err (GetError.rateLimited r), rest⟩
      ∧ ∀ (cfg : ConnectorConfig) (w now : Timestamp)
          (net : List HTTPResponse) (e : GetError),
          (Connector.collect cfg (some w) now net).2.outcome
            = PassOutcome.failed e →
          (Connector.run cfg (some w) now net).1 = w := by
  refine ⟨?_, fun cfg w now net e h => run_failed_keeps_pointer cfg w now net e h⟩
  simp [Client.get, h429, hretry, raise_for_status_raises]

/-- Witness for C6 at a concrete 429 response. -/
theorem rate_limited_when_retries_disabled_concrete :
    demoClientNoRetry.retry = false
      ∧ resp429int.status = 429
      ∧ Client.get demoClientNoRetry "https://u" none [resp429int]
          = ⟨[⟨"https://u", none, demoClientNoRetry.headers⟩], [],
              GetResult.err (GetError.rateLimited resp429int), []⟩ :=
  ⟨rfl, rfl, (rate_limited_when_retries_disabled demoClientNoRetry "https://u"
    none resp429int [] rfl rfl).1⟩

/-- C7 counterexample: a 304 response is neither 2xx nor 429, yet
`raise_for_status` raises only for 4xx/5xx, so the client returns it as a
success instead of failing with RequestFailed. -/
theorem status_304_not_request_failed :
    (Client.get demoClient "https://u" none [resp304]).result
      = GetResult.ok resp304 := rfl

/-- C7 (amended): every response with a 4xx or 5xx status other than 429
fails immediately with RequestFailed wrapping the response, after a single
request, no sleep and no retry; statuses below 400 (3xx included) are
treated as success by `raise_for_status`. -/
theorem request_failed_on_4xx_5xx (c : Client) (url : String)
    (params : Option (List (String × Option Timestamp)))
    (r : HTTPResponse) (rest : List HTTPResponse)
    (h4 : 400 ≤ r.status) (h6 : r.status < 600) (h9 : r.status ≠ 429) :
    Client.get c url params (r :: rest)
      = ⟨[⟨url, params, c.headers⟩], [],
          GetResult.err (GetError.requestFailed r), rest⟩ := by
  have hraise : raise_for_status_raises r.status = true := by
    simp only [raise_for_status_raises, Bool.and_eq_true, decide_eq_true_eq]
    omega
  simp [Client.get, hraise, h9]

/-- Witness for C7 at a concrete 500 response. -/
theorem request_failed_on_4xx_5xx_concrete :
    400 ≤ resp500.status ∧ resp500.status < 600 ∧ resp500.status ≠ 429
      ∧ Client.get demoClient "https://u" none [resp500]
          = ⟨[⟨"https://u", none, demoClient.headers⟩], [],
              GetResult.err (GetError.requestFailed resp500), []⟩ :=
  ⟨by decide, by decide, by decide,
    request_failed_on_4xx_5xx demoClient "https://u" none resp500 []
      (by decide) (by decide) (by decide)⟩

lemma collectLoop_calls_head (client : Client) (pointer now : Timestamp)
    (fuel : Nat) (cursor : Option String) (net : List HTTPResponse) :
    (collectLoop client pointer now (fuel + 1) cursor net).calls.head?
      = some (cursor, some pointer, some now) := by
  simp only [collectLoop]
  split
  · split <;> simp
  · split <;> simp

/-- C8: when the watermark store signals not-found, the pointer used for
the pass — the value passed as the from_date of the first
`get_audit_logs` call — equals `now` minus the one-day lookback,
deterministically for the fixed clock `now`. -/
theorem missing_watermark_seeds_lookback (cfg : ConnectorConfig)
    (now : Timestamp) (net : List HTTPResponse) :
    (Connector.collect cfg none now net).1 = now - lookback_seconds
      ∧ ((Connector.collect cfg none now net).2.calls.head?).map
          (fun x => x.2.1) = some (some (now - lookback_seconds)) := by
  refine ⟨rfl, ?_⟩
  have h := collectLoop_calls_head (Connector.client cfg)
    (now - lookback_seconds) now net.length none net
  simp only [Connector.collect]
  rw [h]
  rfl

/-- C10: a successful (2xx) response whose body lacks `audit_logs` yields
an empty entries list rather than a failure, and one whose body lacks
`next_page` yields an absent cursor, terminating pagination. -/
theorem missing_fields_default (c : Client) (cursor : Option String)
    (f t : Option Timestamp) (r : HTTPResponse) (rest : List HTTPResponse)
    (hs : 200 ≤ r.status ∧ r.status < 300) :
    (r.body.audit_logs = none →
        ∃ a, (Client.get_audit_logs c cursor f t (r :: rest)).2 = some a
          ∧ a.entries = [])
      ∧ (r.body.next_page = none →
        ∃ a, (Client.get_audit_logs c cursor f t (r :: rest)).2 = some a
          ∧ a.cursor = none) := by
  have h4 : ¬ 400 ≤ r.status := by omega
  have hraise : raise_for_status_raises r.status = false := by
    simp [raise_for_status_raises, h4]
  rw [get_audit_logs_ok c cursor f t r rest hraise]
  constructor
  · intro ha
    exact ⟨_, rfl, by simp [ha]⟩
  · intro hn
    exact ⟨_, rfl, by simp [hn]⟩

/-- Witness for C10 at a 201 response with a bare body. -/
theorem missing_fields_default_concrete :
    (200 ≤ (⟨201, none, pageBare⟩ : HTTPResponse).status
        ∧ (⟨201, none, pageBare⟩ : HTTPResponse).status < 300)
      ∧ (∃ a, (Client.get_audit_logs demoClient none (some 100) (some 200)
            [⟨201, none, pageBare⟩]).2 = some a ∧ a.entries = [])
      ∧ (∃ a, (Client.get_audit_logs demoClient none (some 100) (some 200)
            [⟨201, none, pageBare⟩]).2 = some a ∧ a.cursor = none) :=
  ⟨by decide,
    (missing_fields_default demoClient none (some 100) (some 200)
      ⟨201, none, pageBare⟩ [] (by decide)).1 rfl,
    (missing_fields_default demoClient none (some 100) (some 200)
      ⟨201, none, pageBare⟩ [] (by decide)).2 rfl⟩

lemma collectLoop_chain (client : Client) (pointer now : Timestamp) :
    ∀ (pages : List Body) (fuel : Nat) (cursor : Option String),
      chainOk pages → pages.length ≤ fuel →
      (collectLoop client pointer now fuel cursor (okScript pages)).requests
          = requestFor client (some pointer) (some now) cursor
              :: cursorRequests client pages
        ∧ (collectLoop client pointer now fuel cursor (okScript pages)).sleeps
          = []
        ∧ (collectLoop client pointer now fuel cursor (okScript pages)).batches
          = pageEntries pages
        ∧ (collectLoop client pointer now fuel cursor (okScript pages)).outcome
          = PassOutcome.success := by
  intro pages
  induction pages with
  | nil => intro fuel cursor h _; exact absurd h (by simp [chainOk])
  | cons b rest ih =>
    intro fuel cursor hchain hfuel
    obtain ⟨f, rfl⟩ : ∃ f, fuel = f + 1 :=
      ⟨fuel - 1, by simp at hfuel; omega⟩
    cases rest with
    | nil =>
      have hgo := get_audit_logs_ok client cursor (some pointer) (some now)
        ⟨200, none, b⟩ [] rfl
      have hb : b.next_page = none ∨ b.next_page = some "" := hchain
      rcases hb with hb | hb <;>
        simp [collectLoop, okScript, hgo, hb, cursorRequests, pageEntries]
    | cons b2 rest2 =>
      obtain ⟨⟨s, hs, hsne⟩, hrest⟩ :
          (∃ s, b.next_page = some s ∧ s ≠ "") ∧ chainOk (b2 :: rest2) := hchain
      have hfuel2 : (b2 :: rest2).length ≤ f := by simp at hfuel ⊢; omega
      have hgo := get_audit_logs_ok client cursor (some pointer) (some now)
        ⟨200, none, b⟩ (okScript (b2 :: rest2)) rfl
      have hihs := ih f (some s) hrest hfuel2
      simp only [okScript, List.map] at hgo hihs ⊢
      simp only [collectLoop, hgo]
      simp [hs, hsne, hihs.1, hihs.2.1, hihs.2.2.1, hihs.2.2.2,
        cursorRequests, pageEntries, requestFor]

/-- C2: over any page chain delivered as 200 responses — every page but
the last carrying a non-empty cursor, the last an absent or empty-string
one — a collection pass issues exactly one cursor-free date-filtered
request followed by one cursor-only request (no query parameters) per
remaining page, forwards one batch per page to the sink in the order
received, performs no sleeps, and terminates the loop successfully. -/
theorem collect_chain_requests_and_batches (cfg : ConnectorConfig)
    (pointer0 : Option Timestamp) (now : Timestamp) (pages : List Body)
    (h : chainOk pages) :
    (Connector.collect cfg pointer0 now (okScript pages)).2.requests
        = requestFor (Connector.client cfg)
            (some (Connector.collect cfg pointer0 now (okScript pages)).1)
            (some now) none
          :: cursorRequests (Connector.client cfg) pages
      ∧ (Connector.collect cfg pointer0 now (okScript pages)).2.batches
          = pageEntries pages
      ∧ (Connector.collect cfg pointer0 now (okScript pages)).2.sleeps = []
      ∧ (Connector.collect cfg pointer0 now (okScript pages)).2.outcome
          = PassOutcome.success := by
  have hl : pages.length ≤ (okScript pages).length + 1 := by
    simp [okScript]
  have h2 := collectLoop_chain (Connector.client cfg)
    (Connector.collect cfg pointer0 now (okScript pages)).1 now pages
    ((okScript pages).length + 1) none h hl
  cases pointer0 <;>
    exact ⟨h2.1, h2.2.2.1, h2.2.1, h2.2.2.2⟩

/-- Witness for C2 on a two-page chain: three entries plus a cursor, then
one entry with no cursor. -/
theorem collect_chain_concrete :
    chainOk [pageWithCursor, pageLast]
      ∧ (Connector.collect demoConfig (some 100) 200
          (okScript [pageWithCursor, pageLast])).2.batches = [[1, 2, 3], [4]]
      ∧ (Connector.collect demoConfig (some 100) 200
          (okScript [pageWithCursor, pageLast])).2.outcome
          = PassOutcome.success := by
  have hchain : chainOk [pageWithCursor, pageLast] :=
    ⟨⟨"https://next.zendesk.com/p2", rfl, by decide⟩, Or.inl rfl⟩
  have h := collect_chain_requests_and_batches demoConfig (some 100) 200
    [pageWithCursor, pageLast] hchain
  exact ⟨hchain, h.2.1.trans rfl, h.2.2.2⟩

lemma retry_after_usable_ok (o : Option String) (h : retryAfterUsable o) :
    retry_after_seconds o = Except.ok (retryAfterValue o)
      ∧ 0 ≤ retryAfterValue o := by
  cases o with
  | none => exact ⟨rfl, by simp [retryAfterValue]⟩
  | some s =>
    have h2 : 0 ≤ (pyInt s).getD (-1) := h
    cases hn : pyInt s with
    | none => rw [hn] at h2; simp only [Option.getD_none] at h2; omega
    | some n =>
      rw [hn] at h2
      simp only [Option.getD_some] at h2
      refine ⟨?_, ?_⟩
      · simp [retry_after_seconds, retryAfterValue, hn]
      · simpa [retryAfterValue, hn] using h2

/-- C5 counterexample: with retries enabled, a 429 whose `Retry-After`
header is present but not an integer ("abc") makes the client perform no
sleep and issue no second request — the `int` conversion raises instead of
defaulting to 1 second — and a 429 whose header is a negative integer
("-1") likewise aborts after a single request with no delay, because
`time.sleep` rejects negative durations; in both cases the claimed
suspend-and-re-issue behaviour fails. -/
theorem retry_unparsable_header_no_default :
    ((Client.get demoClient "https://u" none [resp429abc]).sleeps = []
      ∧ (Client.get demoClient "https://u" none [resp429abc]).requests.length = 1
      ∧ (Client.get demoClient "https://u" none [resp429abc]).result
          = GetResult.err (GetError.valueError "abc"))
    ∧ ((Client.get demoClient "https://u" none [resp429neg]).sleeps = []
      ∧ (Client.get demoClient "https://u" none [resp429neg]).requests.length = 1
      ∧ (Client.get demoClient "https://u" none [resp429neg]).result
          = GetResult.err (GetError.valueError sleep_negative_msg)) :=
  ⟨⟨rfl, rfl, rfl⟩, ⟨rfl, rfl, rfl⟩⟩

/-- C5 (amended): with retries enabled, every 429 whose `Retry-After`
header is absent or a non-negative integer string makes the client sleep
exactly that many seconds (1 when absent) and re-issue the identical
request — same URL, same parameters, same headers — repeating with no
retry limit until a non-429 response arrives, which is then handled
normally; a present but non-integer header instead raises from the `int`
conversion, and a negative integer header raises from `time.sleep`, each
aborting after a single request with no delay. -/
theorem retry_loop_sleeps_and_reissues (c : Client) (url : String)
    (params : Option (List (String × Option Timestamp)))
    (pre : List HTTPResponse) (r : HTTPResponse) (rest : List HTTPResponse)
    (hretry : c.retry = true)
    (hpre : ∀ x ∈ pre, x.status = 429 ∧ retryAfterUsable x.retryAfter)
    (hr : r.status ≠ 429) :
    Client.get c url params (pre ++ r :: rest)
      = ⟨List.replicate (pre.length + 1) ⟨url, params, c.headers⟩,
          pre.map (fun x => retryAfterValue x.retryAfter),
          if raise_for_status_raises r.status
            then GetResult.err (GetError.requestFailed r)
            else GetResult.ok r,
          rest⟩ := by
  induction pre with
  | nil =>
    by_cases hraise : raise_for_status_raises r.status
    · simp [Client.get, hraise, hr, List.replicate]
    · simp [Client.get, hraise, List.replicate]
  | cons x pre ih =>
    obtain ⟨hx429, hxusable⟩ := hpre x (by simp)
    have hxraise : raise_for_status_raises x.status = true := by
      rw [hx429]; rfl
    have hpre2 : ∀ y ∈ pre, y.status = 429 ∧ retryAfterUsable y.retryAfter :=
      fun y hy => hpre y (by simp [hy])
    have hih := ih hpre2
    have hseconds := (retry_after_usable_ok x.retryAfter hxusable).1
    have hnneg : ¬ retryAfterValue x.retryAfter < 0 := by
      have := (retry_after_usable_ok x.retryAfter hxusable).2
      omega
    simp only [List.cons_append, Client.get, hxraise, hx429, hretry,
      hseconds, hnneg, hih]
    simp [raise_for_status_raises, List.replicate, hih, hnneg]

/-- Witness for C5: one 429 with `Retry-After: 66` followed by a 200 page
causes a single 66-second sleep and an identical second request. -/
theorem retry_loop_concrete :
    demoClient.retry = true
      ∧ (∀ x ∈ [resp429int], x.status = 429 ∧ retryAfterUsable x.retryAfter)
      ∧ (⟨200, none, pageLast⟩ : HTTPResponse).status ≠ 429
      ∧ Client.get demoClient "https://u" none
          ([resp429int] ++ ⟨200, none, pageLast⟩ :: [])
        = ⟨List.replicate 2 ⟨"https://u", none, demoClient.headers⟩, [66],
            GetResult.ok ⟨200, none, pageLast⟩, []⟩ := by
  have hpre : ∀ x ∈ [resp429int], x.status = 429 ∧ retryAfterUsable x.retryAfter := by
    intro x hx
    simp only [List.mem_singleton] at hx
    subst hx
    exact ⟨rfl, (by decide : (0 : Int) ≤ (pyInt "66").getD (-1))⟩
  refine ⟨rfl, hpre, by decide, ?_⟩
  have h := retry_loop_sleeps_and_reissues demoClient "https://u" none
    [resp429int] ⟨200, none, pageLast⟩ [] rfl hpre (by decide)
  exact h.trans rfl

lemma get_never_rate_limited (c : Client) (hretry : c.retry = true)
    (url : String) (params : Option (List (String × Option Timestamp))) :
    ∀ (net : List HTTPResponse) (r : HTTPResponse),
      (Client.get c url params net).result
        ≠ GetResult.err (GetError.rateLimited r) := by
  intro net
  induction net with
  | nil => intro r; simp [Client.get]
  | cons x rest ih =>
    intro r
    simp only [Client.get, hretry]
    split
    · split
      · simp only [if_true]
        split
        · split
          · simp
          · simpa using ih r
        · simp
      · simp
    · simp

lemma get_audit_logs_fst (c : Client) (cursor : Option String)
    (f t : Option Timestamp) (net : List HTTPResponse) :
    ∃ url params, (Client.get_audit_logs c cursor f t net).1
      = Client.get c url params net := by
  cases cursor with
  | none =>
    refine ⟨c.api_base_uri ++ "/api/v2/audit_logs",
      some (first_page_params f t), ?_⟩
    simp only [Client.get_audit_logs]
    split <;> rfl
  | some cur =>
    refine ⟨cur, none, ?_⟩
    simp only [Client.get_audit_logs]
    split <;> rfl

lemma collectLoop_never_rate_limited (client : Client)
    (hretry : client.retry = true) (pointer now : Timestamp) :
    ∀ (fuel : Nat) (cursor : Option String) (net : List HTTPResponse)
      (r : HTTPResponse),
      (collectLoop client pointer now fuel cursor net).outcome
        ≠ PassOutcome.failed (GetError.rateLimited r) := by
  intro fuel
  induction fuel with
  | zero => intro cursor net r; simp [collectLoop]
  | succ f ih =>
    intro cursor net r
    obtain ⟨url, params, hfst⟩ :=
      get_audit_logs_fst client cursor (some pointer) (some now) net
    simp only [collectLoop]
    split
    · split
      · simp
      · simpa using ih _ _ r
    · split
      · rename_i heq _ _ herr
        intro hcontra
        simp only [PassOutcome.failed.injEq] at hcontra
        exact get_never_rate_limited client hretry url params net r
          (by rw [← hfst, herr, hcontra])
      · simp

/-- C9: `Connector.collect` constructs its client without passing the
`retry` flag, whose declared default is enabled, so retries on 429 are
always on and no collection pass can ever fail with the RateLimited error
of the retries-disabled branch. -/
theorem connector_client_always_retries :
    (∀ cfg : ConnectorConfig, (Connector.client cfg).retry = true)
      ∧ ∀ (cfg : ConnectorConfig) (pointer0 : Option Timestamp)
          (now : Timestamp) (net : List HTTPResponse) (r : HTTPResponse),
          (Connector.collect cfg pointer0 now net).2.outcome
            ≠ PassOutcome.failed (GetError.rateLimited r) := by
  refine ⟨fun cfg => rfl, ?_⟩
  intro cfg pointer0 now net r
  cases pointer0 <;>
    exact collectLoop_never_rate_limited (Connector.client cfg) rfl _ now
      (net.length + 1) none net r

end Grove
